import Mathlib

/-!
Shallow embedding of the `pcl::PointCloud<pcl_cloud_span::Spannable<T>>`
specialization from `src/include/pcl_cloud_span/impl/point_cloud.h`.

Machine integers: `width` and `height` are `std::uint32_t` fields; every store
of a wider value into them, and every arithmetic operation performed in
`unsigned int`, is modelled with an explicit `% M32`.  Buffer sizes are
`std::size_t`; `operator()` computes its index in `std::size_t`, modelled with
`% M64`.  Fallible operations return `Except Err`.
-/

namespace PclCloudSpan

/-- 2^32, the modulus of `std::uint32_t` arithmetic. -/
def M32 : Nat := 4294967296

/-- 2^64, the modulus of `std::size_t` arithmetic. -/
def M64 : Nat := 18446744073709551616

/-- Error taxonomy of the code: `std::out_of_range` (from bounds-checked
element access), `pcl::UnorganizedPointCloudException` (2D access on an
unorganized cloud), and the capacity error of growing a borrowed span. -/
inductive Err where
  | outOfRange
  | unorganized
  | capacityViolation
deriving DecidableEq, Repr

/-- `pcl::PCLHeader`: acquisition metadata, opaque to this layer except for
`stamp`, which `concatenate` reads and writes. -/
structure Header where
  seq : Nat := 0
  stamp : Nat := 0
  frame_id : Nat := 0
deriving DecidableEq, Repr

/-- Modelled from the spec: the points container is
`span_or_vector::span_or_vector<PointT>`, an external library whose source is
not part of this repository (only its caller `point_cloud.h` is under `src/`).
Per spec section 3 and section 4.1 (HybridBuffer) it is, at any moment, either
*owning* (a growable vector) or *borrowing* (`isSpan = true`, a fixed-length
view over caller storage). -/
structure SpanOrVector (α : Type) where
  isSpan : Bool
  data : List α
deriving DecidableEq, Repr

/-- `std::vector`-style resize: truncate to the first `n` elements, or append
copies of `v` until the length is `n`. -/
def listResize (l : List α) (n : Nat) (v : α) : List α :=
  if n ≤ l.length then l.take n else l ++ List.replicate (n - l.length) v

namespace SpanOrVector

/-- Modelled from the spec (section 4.1): `resize` on a Borrowing buffer with a
new length different from the current one signals a capacity error and never
reallocates; on an Owning buffer it truncates or grows, filling with `v`. -/
def resize (sv : SpanOrVector α) (n : Nat) (v : α) : Except Err (SpanOrVector α) :=
  if sv.isSpan then
    if n = sv.data.length then .ok sv else .error .capacityViolation
  else
    .ok ⟨false, listResize sv.data n v⟩

/-- Modelled from the spec (section 4.1): capacity-increasing `push_back` is
illegal on a Borrowing buffer and signals the capacity error. -/
def push_back (sv : SpanOrVector α) (x : α) : Except Err (SpanOrVector α) :=
  if sv.isSpan then .error .capacityViolation else .ok ⟨false, sv.data ++ [x]⟩

/-- Modelled from the spec (section 4.1): single-element `insert` before
position `i`; length-increasing, hence illegal on a Borrowing buffer. -/
def insert1 (sv : SpanOrVector α) (i : Nat) (x : α) : Except Err (SpanOrVector α) :=
  if sv.isSpan then .error .capacityViolation
  else .ok ⟨false, sv.data.take i ++ x :: sv.data.drop i⟩

/-- Modelled from the spec (section 4.1): `insert` of `n` copies of `x` before
position `i`; illegal on a Borrowing buffer unless it inserts nothing. -/
def insertN (sv : SpanOrVector α) (i n : Nat) (x : α) : Except Err (SpanOrVector α) :=
  if sv.isSpan then
    if n = 0 then .ok sv else .error .capacityViolation
  else
    .ok ⟨false, sv.data.take i ++ List.replicate n x ++ sv.data.drop i⟩

/-- Modelled from the spec (section 4.1): range `insert` before position `i`;
illegal on a Borrowing buffer unless the range is empty. -/
def insert_range (sv : SpanOrVector α) (i : Nat) (xs : List α) :
    Except Err (SpanOrVector α) :=
  if sv.isSpan then
    if xs.isEmpty then .ok sv else .error .capacityViolation
  else
    .ok ⟨false, sv.data.take i ++ xs ++ sv.data.drop i⟩

/-- Modelled from the spec (section 4.1): erase of the element at position `i`;
length-changing, hence rejected on a Borrowing buffer. -/
def erase1 (sv : SpanOrVector α) (i : Nat) : Except Err (SpanOrVector α) :=
  if sv.isSpan then .error .capacityViolation else .ok ⟨false, sv.data.eraseIdx i⟩

/-- Modelled from the spec (section 4.1): erase of positions `[i, j)`;
length-changing, hence rejected on a Borrowing buffer. -/
def erase_range (sv : SpanOrVector α) (i j : Nat) : Except Err (SpanOrVector α) :=
  if sv.isSpan then .error .capacityViolation
  else .ok ⟨false, sv.data.take i ++ sv.data.drop j⟩

/-- Modelled from the spec (section 4.1): `assign(count, value)`; in Borrowing
mode only a length-preserving overwrite is legal. -/
def assign_count (sv : SpanOrVector α) (n : Nat) (v : α) :
    Except Err (SpanOrVector α) :=
  if sv.isSpan then
    if n = sv.data.length then .ok ⟨true, List.replicate n v⟩
    else .error .capacityViolation
  else
    .ok ⟨false, List.replicate n v⟩

/-- Modelled from the spec (section 4.1): `assign` from a range; in Borrowing
mode only a length-preserving overwrite is legal. -/
def assign_list (sv : SpanOrVector α) (xs : List α) : Except Err (SpanOrVector α) :=
  if sv.isSpan then
    if xs.length = sv.data.length then .ok ⟨true, xs⟩
    else .error .capacityViolation
  else
    .ok ⟨false, xs⟩

/-- Modelled from the spec (section 3, Lifecycle): an explicit clear resets the
buffer to empty. -/
def clearData (sv : SpanOrVector α) : SpanOrVector α := ⟨sv.isSpan, []⟩

/-- Modelled from the spec (section 3, Ownership): copy construction always
produces an Owning deep copy, even when the source was Borrowing. -/
def copy (sv : SpanOrVector α) : SpanOrVector α := ⟨false, sv.data⟩

end SpanOrVector

/-- The `pcl::PointCloud<Spannable<T>>` data model: header, points buffer,
`uint32` grid dimensions, density flag, and sensor pose.  Default construction
gives an empty dense cloud with identity pose (lines 302-321 of the source).
The pose components are opaque to this layer; they are modelled as 4-tuples. -/
structure PointCloud (α : Type) where
  header : Header := {}
  points : SpanOrVector α := ⟨false, []⟩
  width : Nat := 0
  height : Nat := 0
  is_dense : Bool := true
  sensor_origin_ : Int × Int × Int × Int := (0, 0, 0, 0)
  sensor_orientation_ : Int × Int × Int × Int := (1, 0, 0, 0)
deriving DecidableEq, Repr

namespace PointCloud

/-- Constructor `PointCloud(PointT* data, uint32_t width_, uint32_t height_)`
(source lines 53-57): a zero-copy span of `width_ * height_` elements over the
external array `ext`; the length product is computed in `unsigned` arithmetic,
hence `% M32`.  All other fields keep their defaults. -/
def ofSpan (ext : List α) (w h : Nat) : PointCloud α :=
  { points := ⟨true, ext.take (w * h % M32)⟩, width := w, height := h }

/-- Constructor `PointCloud(uint32_t width_, uint32_t height_, const PointT&)`
(source lines 83-87): an owning allocation of `width_ * height_` copies of
`v`, the product again computed in `unsigned` arithmetic. -/
def fill (w h : Nat) (v : α) : PointCloud α :=
  { points := ⟨false, List.replicate (w * h % M32) v⟩, width := w, height := h }

/-- Subset copy constructor `PointCloud(const PointCloud&, const Indices&)`
(source lines 63-76): owning copy of `pc[indices[i]]` positionally; the
`width(indices.size())` member initializer narrows `size_t` to `uint32`.
Out-of-range indices are undefined behavior in C++ and are modelled with
`getD`; the debug-only `assert(indices.size() <= pc.size())` is a no-op under
`NDEBUG` and is not part of the release semantics modelled here. -/
def subsetOf [Inhabited α] (pc : PointCloud α) (indices : List Nat) : PointCloud α :=
  { header := pc.header
    points := ⟨false, indices.map fun j => pc.points.data.getD j default⟩
    width := indices.length % M32
    height := 1
    is_dense := pc.is_dense
    sensor_origin_ := pc.sensor_origin_
    sensor_orientation_ := pc.sensor_orientation_ }

/-- `isOrganized()` (source lines 192-196): `height > 1`. -/
def isOrganized (pc : PointCloud α) : Bool := decide (pc.height > 1)

/-- `at(int column, int row)` (source lines 144-152): 2D bounds-checked
access.  The index `row * width + column` is computed in `unsigned` (32-bit)
arithmetic, hence `% M32`; `points.at` then raises `std::out_of_range` when
the index is not below the length. -/
def at2 (pc : PointCloud α) (column row : Nat) : Except Err α :=
  if pc.height > 1 then
    match pc.points.data.get? ((row * pc.width + column) % M32) with
    | some v => .ok v
    | none => .error .outOfRange
  else
    .error .unorganized

/-- `operator()(size_t column, size_t row)` (source lines 172-176): unchecked
2D access; the index is computed in `size_t` (64-bit) arithmetic.  The C++
operator has undefined behavior out of range, modelled by `get?`. -/
def call2 (pc : PointCloud α) (column row : Nat) : Option α :=
  pc.points.data.get? ((row * pc.width + column) % M64)

/-- `resize(size_t count)` (source lines 448-456): resize the buffer, then
collapse to unorganized iff the `unsigned` product `width * height` differs
from `count`; the collapse narrows `count` to `uint32`. -/
def resize1 [Inhabited α] (pc : PointCloud α) (count : Nat) :
    Except Err (PointCloud α) :=
  (pc.points.resize count default).map fun p =>
    if pc.width * pc.height % M32 = count then { pc with points := p }
    else { pc with points := p, width := count % M32, height := 1 }

/-- `resize(index_t count, const PointT& value)` (source lines 488-496): same
shape policy as `resize1`, filling new slots with `v`. -/
def resize1v (pc : PointCloud α) (count : Nat) (v : α) :
    Except Err (PointCloud α) :=
  (pc.points.resize count v).map fun p =>
    if pc.width * pc.height % M32 = count then { pc with points := p }
    else { pc with points := p, width := count % M32, height := 1 }

/-- `resize(uindex_t new_width, uindex_t new_height)` (source lines 468-474):
resize the buffer to the `unsigned` product `new_width * new_height` and set
both dimensions unconditionally. -/
def resize2 [Inhabited α] (pc : PointCloud α) (w h : Nat) :
    Except Err (PointCloud α) :=
  (pc.points.resize (w * h % M32) default).map fun p =>
    { pc with points := p, width := w, height := h }

/-- `resize(index_t new_width, index_t new_height, const PointT& value)`
(source lines 509-515). -/
def resize2v (pc : PointCloud α) (w h : Nat) (v : α) : Except Err (PointCloud α) :=
  (pc.points.resize (w * h % M32) v).map fun p =>
    { pc with points := p, width := w, height := h }

/-- `assign(index_t count, const PointT& value)` (source lines 566-572):
replace the points, then unconditionally set `width = size()` (narrowed to
`uint32`) and `height = 1`. -/
def assign_count (pc : PointCloud α) (count : Nat) (v : α) :
    Except Err (PointCloud α) :=
  (pc.points.assign_count count v).map fun p =>
    { pc with points := p, width := p.data.length % M32, height := 1 }

/-- `assign(index_t new_width, index_t new_height, const PointT& value)`
(source lines 580-586). -/
def assign2 (pc : PointCloud α) (w h : Nat) (v : α) : Except Err (PointCloud α) :=
  (pc.points.assign_count (w * h % M32) v).map fun p =>
    { pc with points := p, width := w, height := h }

/-- `assign(InputIterator first, InputIterator last)` and
`assign(initializer_list)` (source lines 595-602 and 641-646): replace the
points with the given range, then unconditionally collapse to
`width = size(), height = 1`. -/
def assign_list (pc : PointCloud α) (xs : List α) : Except Err (PointCloud α) :=
  (pc.points.assign_list xs).map fun p =>
    { pc with points := p, width := p.data.length % M32, height := 1 }

/-- `assign(first, last, index_t new_width)` and
`assign(initializer_list, index_t new_width)` (source lines 613-634 and
655-673).  Returns the cloud together with a flag recording whether the
`PCL_WARN` diagnostic was emitted.  `height = size() / width` narrows to
`uint32`, and the mismatch test compares the `unsigned` product
`width * height` against `size()`. -/
def assign_list_w (pc : PointCloud α) (xs : List α) (new_width : Nat) :
    Except Err (PointCloud α × Bool) :=
  if new_width = 0 then
    (pc.assign_list xs).map fun c => (c, true)
  else
    (pc.points.assign_list xs).map fun p =>
      let sz := p.data.length
      let ht := sz / new_width % M32
      if new_width * ht % M32 = sz then
        ({ pc with points := p, width := new_width, height := ht }, false)
      else
        ({ pc with points := p, width := sz % M32, height := 1 }, true)

/-- `push_back(const PointT& pt)` (source lines 679-685): append, then
`width = size()` (narrowed) and `height = 1`. -/
def push_back (pc : PointCloud α) (pt : α) : Except Err (PointCloud α) :=
  (pc.points.push_back pt).map fun p =>
    { pc with points := p, width := p.data.length % M32, height := 1 }

/-- `transient_push_back(const PointT& pt)` (source lines 691-695): the same
buffer mutation, leaving `width` and `height` untouched. -/
def transient_push_back (pc : PointCloud α) (pt : α) : Except Err (PointCloud α) :=
  (pc.points.push_back pt).map fun p => { pc with points := p }

/-- `emplace_back(Args&&...)` (source lines 702-710): constructs the point at
the end; buffer-wise identical to `push_back` of the constructed point. -/
def emplace_back (pc : PointCloud α) (pt : α) : Except Err (PointCloud α) :=
  (pc.points.push_back pt).map fun p =>
    { pc with points := p, width := p.data.length % M32, height := 1 }

/-- `transient_emplace_back(Args&&...)` (source lines 717-723). -/
def transient_emplace_back (pc : PointCloud α) (pt : α) :
    Except Err (PointCloud α) :=
  (pc.points.push_back pt).map fun p => { pc with points := p }

/-- `insert(iterator position, const PointT& pt)` (source lines 731-738); the
iterator is modelled by its index. -/
def insert1 (pc : PointCloud α) (i : Nat) (pt : α) : Except Err (PointCloud α) :=
  (pc.points.insert1 i pt).map fun p =>
    { pc with points := p, width := p.data.length % M32, height := 1 }

/-- `transient_insert(iterator position, const PointT& pt)` (source lines
746-751). -/
def transient_insert1 (pc : PointCloud α) (i : Nat) (pt : α) :
    Except Err (PointCloud α) :=
  (pc.points.insert1 i pt).map fun p => { pc with points := p }

/-- `insert(iterator position, size_t n, const PointT& pt)` (source lines
759-765). -/
def insertN (pc : PointCloud α) (i n : Nat) (pt : α) : Except Err (PointCloud α) :=
  (pc.points.insertN i n pt).map fun p =>
    { pc with points := p, width := p.data.length % M32, height := 1 }

/-- `transient_insert(iterator position, size_t n, const PointT& pt)` (source
lines 773-777). -/
def transient_insertN (pc : PointCloud α) (i n : Nat) (pt : α) :
    Except Err (PointCloud α) :=
  (pc.points.insertN i n pt).map fun p => { pc with points := p }

/-- `insert(iterator position, InputIterator first, InputIterator last)`
(source lines 785-792). -/
def insert_range (pc : PointCloud α) (i : Nat) (xs : List α) :
    Except Err (PointCloud α) :=
  (pc.points.insert_range i xs).map fun p =>
    { pc with points := p, width := p.data.length % M32, height := 1 }

/-- `transient_insert(iterator position, InputIterator, InputIterator)`
(source lines 800-805). -/
def transient_insert_range (pc : PointCloud α) (i : Nat) (xs : List α) :
    Except Err (PointCloud α) :=
  (pc.points.insert_range i xs).map fun p => { pc with points := p }

/-- `emplace(iterator position, Args&&...)` (source lines 813-821):
buffer-wise identical to single-element insert of the constructed point. -/
def emplace1 (pc : PointCloud α) (i : Nat) (pt : α) : Except Err (PointCloud α) :=
  (pc.points.insert1 i pt).map fun p =>
    { pc with points := p, width := p.data.length % M32, height := 1 }

/-- `transient_emplace(iterator position, Args&&...)` (source lines
829-835). -/
def transient_emplace1 (pc : PointCloud α) (i : Nat) (pt : α) :
    Except Err (PointCloud α) :=
  (pc.points.insert1 i pt).map fun p => { pc with points := p }

/-- `erase(iterator position)` (source lines 842-849). -/
def erase1 (pc : PointCloud α) (i : Nat) : Except Err (PointCloud α) :=
  (pc.points.erase1 i).map fun p =>
    { pc with points := p, width := p.data.length % M32, height := 1 }

/-- `transient_erase(iterator position)` (source lines 856-861). -/
def transient_erase1 (pc : PointCloud α) (i : Nat) : Except Err (PointCloud α) :=
  (pc.points.erase1 i).map fun p => { pc with points := p }

/-- `erase(iterator first, iterator last)` (source lines 869-876). -/
def erase_range (pc : PointCloud α) (i j : Nat) : Except Err (PointCloud α) :=
  (pc.points.erase_range i j).map fun p =>
    { pc with points := p, width := p.data.length % M32, height := 1 }

/-- `transient_erase(iterator first, iterator last)` (source lines
884-889). -/
def transient_erase_range (pc : PointCloud α) (i j : Nat) :
    Except Err (PointCloud α) :=
  (pc.points.erase_range i j).map fun p => { pc with points := p }

/-- `clear()` (source lines 906-913): empty the buffer and zero both
dimensions; every other field is untouched. -/
def clear (pc : PointCloud α) : PointCloud α :=
  { pc with points := pc.points.clearData, width := 0, height := 0 }

/-- `concatenate(PointCloud& cloud1, const PointCloud& cloud2)` (source lines
114-129): take the newest stamp, append `cloud2`'s points at the end of
`cloud1`'s buffer, then `width = size()` (narrowed to `uint32`), `height = 1`,
and AND the density flags. -/
def concat2 (c1 c2 : PointCloud α) : Except Err (PointCloud α) :=
  (c1.points.insert_range c1.points.data.length c2.points.data).map fun p =>
    { c1 with
      header := { c1.header with stamp := max c1.header.stamp c2.header.stamp }
      points := p
      width := p.data.length % M32
      height := 1
      is_dense := c1.is_dense && c2.is_dense }

/-- `concatenate(const PointCloud&, const PointCloud&, PointCloud& cloud_out)`
(source lines 131-138): `cloud_out = cloud1` (an owning deep copy of the
buffer, per the spec's ownership rule) followed by in-place concatenation. -/
def concat3 (c1 c2 : PointCloud α) : Except Err (PointCloud α) :=
  concat2 { c1 with points := c1.points.copy } c2

end PointCloud

/-- A concrete owning grid holding exactly 2^32 points (its own `width` field
already shows the `uint32` narrowing: a length of 2^32 is stored as 0).  Used
to exhibit the 32-bit wrap of `width = size()` at concrete inputs. -/
def hugeCloud : PointCloud Nat :=
  { points := ⟨false, List.replicate M32 0⟩, width := 0, height := 1 }

/-- A concrete list of 2^32 zeroes, used as an index sequence and as an
assignment range when exhibiting the 32-bit narrowing. -/
def hugeList : List Nat := List.replicate M32 0

end PclCloudSpan

deriving instance DecidableEq for Except

namespace PclCloudSpan

/-! ## Helper lemmas about the buffer operations -/

theorem listResize_length (l : List α) (n : Nat) (v : α) :
    (listResize l n v).length = n := by
  unfold listResize
  split
  · simp [List.length_take]; omega
  · simp; omega

theorem sv_resize_ok_length (sv : SpanOrVector α) (n : Nat) (v : α)
    (p : SpanOrVector α) (h : sv.resize n v = .ok p) : p.data.length = n := by
  unfold SpanOrVector.resize at h
  split at h
  · split at h
    · rename_i hn
      cases h
      omega
    · simp at h
  · cases h
    exact listResize_length _ _ _

theorem sv_assign_count_ok (sv : SpanOrVector α) (n : Nat) (v : α)
    (p : SpanOrVector α) (h : sv.assign_count n v = .ok p) :
    p.data = List.replicate n v := by
  unfold SpanOrVector.assign_count at h
  split at h
  · split at h
    · cases h
      rfl
    · simp at h
  · cases h
    rfl

theorem sv_assign_list_ok (sv : SpanOrVector α) (xs : List α)
    (p : SpanOrVector α) (h : sv.assign_list xs = .ok p) : p.data = xs := by
  unfold SpanOrVector.assign_list at h
  split at h
  · split at h
    · cases h
      rfl
    · simp at h
  · cases h
    rfl

theorem sv_insert_range_end_ok (sv : SpanOrVector α) (xs : List α)
    (p : SpanOrVector α) (h : sv.insert_range sv.data.length xs = .ok p) :
    p.data = sv.data ++ xs := by
  unfold SpanOrVector.insert_range at h
  split at h
  · split at h
    · rename_i hxs
      cases h
      simp [List.isEmpty_iff.mp hxs]
    · simp at h
  · cases h
    simp [List.take_length, List.drop_length]

/-- Frame shape of every "transient" grid operation: it is the underlying
buffer operation with `width` and `height` carried over unchanged. -/
theorem map_points_frame (e : Except Err (SpanOrVector α)) (pc : PointCloud α) :
    ((e.map fun p => { pc with points := p }).map
        fun c => (c.points, c.width, c.height))
      = e.map fun p => (p, pc.width, pc.height) := by
  cases e <;> simp [Except.map]

/-- Frame shape of every collapsing plain grid operation: projecting the
points recovers exactly the underlying buffer operation. -/
theorem map_points_proj (e : Except Err (SpanOrVector α)) (pc : PointCloud α) :
    ((e.map fun p =>
        { pc with points := p, width := p.data.length % M32, height := 1 }).map
      fun c => c.points) = e := by
  cases e <;> simp [Except.map]

/-- Field characterization shared by all collapsing mutations: whenever such a
call returns a cloud, its width is the (32-bit narrowed) buffer length and its
height is 1. -/
theorem collapse_fields (e : Except Err (SpanOrVector α))
    (f : SpanOrVector α → PointCloud α)
    (hf : ∀ p, (f p).points = p ∧ (f p).width = p.data.length % M32 ∧
      (f p).height = 1)
    (pc' : PointCloud α) (h : e.map f = .ok pc') :
    pc'.width = pc'.points.data.length % M32 ∧ pc'.height = 1 := by
  cases e with
  | error err => simp [Except.map] at h
  | ok p =>
    simp [Except.map] at h
    subst h
    obtain ⟨h1, h2, h3⟩ := hf p
    refine ⟨?_, h3⟩
    rw [h2, h1]


/-! ## Claim theorems -/

/-- C9 (confirmed): `clear()` empties the point buffer and sets `width` and
`height` to 0, leaving the header, the density flag, and the sensor pose
unchanged. -/
theorem clear_empties_and_preserves_frame (α : Type) (pc : PointCloud α) :
    pc.clear.points.data = [] ∧ pc.clear.width = 0 ∧ pc.clear.height = 0 ∧
    pc.clear.header = pc.header ∧ pc.clear.is_dense = pc.is_dense ∧
    pc.clear.sensor_origin_ = pc.sensor_origin_ ∧
    pc.clear.sensor_orientation_ = pc.sensor_orientation_ :=
  ⟨rfl, rfl, rfl, rfl, rfl, rfl, rfl⟩

/-- C8 (confirmed): each transient mutation performs exactly the underlying
buffer mutation of its plain counterpart — projecting the points of the plain
call recovers the buffer operation, and the transient call yields that same
buffer together with the unchanged `width` and `height` of the original
grid. -/
theorem transient_ops_mutate_buffer_only (α : Type) (pc : PointCloud α)
    (x : α) (i n j : Nat) (xs : List α) :
    (((pc.transient_push_back x).map fun c => (c.points, c.width, c.height))
        = (pc.points.push_back x).map (fun p => (p, pc.width, pc.height)) ∧
      ((pc.push_back x).map fun c => c.points) = pc.points.push_back x) ∧
    (((pc.transient_emplace_back x).map fun c => (c.points, c.width, c.height))
        = (pc.points.push_back x).map (fun p => (p, pc.width, pc.height)) ∧
      ((pc.emplace_back x).map fun c => c.points) = pc.points.push_back x) ∧
    (((pc.transient_insert1 i x).map fun c => (c.points, c.width, c.height))
        = (pc.points.insert1 i x).map (fun p => (p, pc.width, pc.height)) ∧
      ((pc.insert1 i x).map fun c => c.points) = pc.points.insert1 i x) ∧
    (((pc.transient_insertN i n x).map fun c => (c.points, c.width, c.height))
        = (pc.points.insertN i n x).map (fun p => (p, pc.width, pc.height)) ∧
      ((pc.insertN i n x).map fun c => c.points) = pc.points.insertN i n x) ∧
    (((pc.transient_insert_range i xs).map
          fun c => (c.points, c.width, c.height))
        = (pc.points.insert_range i xs).map
          (fun p => (p, pc.width, pc.height)) ∧
      ((pc.insert_range i xs).map fun c => c.points)
        = pc.points.insert_range i xs) ∧
    (((pc.transient_emplace1 i x).map fun c => (c.points, c.width, c.height))
        = (pc.points.insert1 i x).map (fun p => (p, pc.width, pc.height)) ∧
      ((pc.emplace1 i x).map fun c => c.points) = pc.points.insert1 i x) ∧
    (((pc.transient_erase1 i).map fun c => (c.points, c.width, c.height))
        = (pc.points.erase1 i).map (fun p => (p, pc.width, pc.height)) ∧
      ((pc.erase1 i).map fun c => c.points) = pc.points.erase1 i) ∧
    (((pc.transient_erase_range i j).map fun c => (c.points, c.width, c.height))
        = (pc.points.erase_range i j).map (fun p => (p, pc.width, pc.height)) ∧
      ((pc.erase_range i j).map fun c => c.points)
        = pc.points.erase_range i j) :=
  ⟨⟨map_points_frame _ _, map_points_proj _ _⟩,
   ⟨map_points_frame _ _, map_points_proj _ _⟩,
   ⟨map_points_frame _ _, map_points_proj _ _⟩,
   ⟨map_points_frame _ _, map_points_proj _ _⟩,
   ⟨map_points_frame _ _, map_points_proj _ _⟩,
   ⟨map_points_frame _ _, map_points_proj _ _⟩,
   ⟨map_points_frame _ _, map_points_proj _ _⟩,
   ⟨map_points_frame _ _, map_points_proj _ _⟩⟩

/-- C2 (confirmed, buffer modelled from the spec): on a Borrowing (span-mode)
grid, every length-increasing mutation — `push_back`, `insert` of one or more
points, and `resize` to a larger size — fails with the capacity error.  The
operations are pure: an `.error` result carries no mutated state, so the
buffer's contents and length are untouched and growth never happens by
reallocation. -/
theorem borrowing_growth_is_capacity_error (α : Type) [Inhabited α]
    (pc : PointCloud α) (x : α) (i n count : Nat)
    (hspan : pc.points.isSpan = true) :
    pc.push_back x = .error .capacityViolation ∧
    pc.insert1 i x = .error .capacityViolation ∧
    (0 < n → pc.insertN i n x = .error .capacityViolation) ∧
    (pc.points.data.length < count →
      pc.resize1 count = .error .capacityViolation) := by
  refine ⟨?_, ?_, fun hn => ?_, fun hc => ?_⟩
  · simp [PointCloud.push_back, SpanOrVector.push_back, hspan, Except.map]
  · simp [PointCloud.insert1, SpanOrVector.insert1, hspan, Except.map]
  · have hn0 : ¬ n = 0 := by omega
    simp [PointCloud.insertN, SpanOrVector.insertN, hspan, hn0, Except.map]
  · have hc0 : ¬ count = pc.points.data.length := by omega
    simp [PointCloud.resize1, SpanOrVector.resize, hspan, hc0, Except.map]

/-- Witness for C2 at a concrete span-mode grid of two points. -/
theorem borrowing_growth_is_capacity_error_witness :
    (PointCloud.ofSpan [1, 2] 2 1 : PointCloud Nat).push_back 9
        = .error .capacityViolation ∧
    (PointCloud.ofSpan [1, 2] 2 1 : PointCloud Nat).insert1 0 9
        = .error .capacityViolation ∧
    (PointCloud.ofSpan [1, 2] 2 1 : PointCloud Nat).insertN 0 3 9
        = .error .capacityViolation ∧
    (PointCloud.ofSpan [1, 2] 2 1 : PointCloud Nat).resize1 5
        = .error .capacityViolation := by
  have h := borrowing_growth_is_capacity_error Nat
    (PointCloud.ofSpan [1, 2] 2 1) 9 0 3 5 (by decide)
  exact ⟨h.1, h.2.1, h.2.2.1 (by decide), h.2.2.2 (by decide)⟩

/-- C10 (confirmed): in the zero-copy `(pointer, width, height)` constructor
and in the two-dimension `resize`, the buffer length is the product
`width * height` computed in unsigned 32-bit arithmetic, so whenever the
mathematical product is at least 2^32 the resulting length is
`width * height % 2^32`, which differs from the true product. -/
theorem u32_product_wraps_length (α : Type) [Inhabited α] (ext : List α)
    (w h : Nat) (pc pc' : PointCloud α)
    (hw : w < M32) (hh : h < M32) (hbig : M32 ≤ w * h)
    (hext : w * h % M32 ≤ ext.length)
    (hres : pc.resize2 w h = .ok pc') :
    (PointCloud.ofSpan ext w h).points.data.length = w * h % M32 ∧
    pc'.points.data.length = w * h % M32 ∧
    w * h % M32 ≠ w * h := by
  have hmod : w * h % M32 < M32 := Nat.mod_lt _ (by norm_num [M32])
  refine ⟨?_, ?_, by omega⟩
  · simp [PointCloud.ofSpan, List.length_take]
    omega
  · unfold PointCloud.resize2 at hres
    cases hsv : pc.points.resize (w * h % M32) default with
    | error e => rw [hsv] at hres; simp [Except.map] at hres
    | ok p =>
      rw [hsv] at hres
      simp [Except.map] at hres
      subst hres
      exact sv_resize_ok_length _ _ _ _ hsv

/-- Witness for C10 at width = height = 65536, whose product is exactly 2^32:
both the span constructor and the two-dimension resize produce an empty
buffer. -/
theorem u32_product_wraps_length_witness :
    (PointCloud.ofSpan ([] : List Nat) 65536 65536).points.data.length
        = 65536 * 65536 % M32 ∧
    (((PointCloud.fill 0 0 (0 : Nat)).resize2 65536 65536).toOption.getD
          (PointCloud.fill 0 0 0)).points.data.length = 65536 * 65536 % M32 ∧
    65536 * 65536 % M32 ≠ 65536 * 65536 :=
  u32_product_wraps_length Nat [] 65536 65536 (PointCloud.fill 0 0 0)
    (((PointCloud.fill 0 0 (0 : Nat)).resize2 65536 65536).toOption.getD
      (PointCloud.fill 0 0 0))
    (by decide) (by decide) (by decide) (by decide) (by decide)


/-- Field characterization of the single-dimension `resize` shape policy: the
new length is `count`, and the dimensions are kept exactly when the old
`width * height` equals `count` (all quantities below 2^32) and collapse to
`(count, 1)` otherwise. -/
theorem resize_fields (pc : PointCloud α) (count : Nat) (v : α)
    (pc' : PointCloud α)
    (hwh : pc.width * pc.height < M32) (hc : count < M32)
    (h : (pc.points.resize count v).map (fun p =>
        if pc.width * pc.height % M32 = count then { pc with points := p }
        else { pc with points := p, width := count % M32, height := 1 })
      = .ok pc') :
    pc'.points.data.length = count ∧
    (pc.width * pc.height = count →
      pc'.width = pc.width ∧ pc'.height = pc.height) ∧
    (pc.width * pc.height ≠ count → pc'.width = count ∧ pc'.height = 1) := by
  have hmodc : count % M32 = count := Nat.mod_eq_of_lt hc
  cases hsv : pc.points.resize count v with
  | error e => rw [hsv] at h; simp [Except.map] at h
  | ok p =>
    rw [hsv] at h
    simp [Except.map] at h
    have hlen : p.data.length = count := sv_resize_ok_length _ _ _ _ hsv
    rw [Nat.mod_eq_of_lt hwh] at h
    by_cases he : pc.width * pc.height = count
    · rw [if_pos he] at h
      subst h
      exact ⟨hlen, fun _ => ⟨rfl, rfl⟩, fun hne => absurd he hne⟩
    · rw [if_neg he] at h
      subst h
      exact ⟨hlen, fun heq => absurd heq he, fun _ => ⟨hmodc, rfl⟩⟩

/-- The single-dimension `resize` restores `width * height = length` whenever
no quantity overflows 32 bits. -/
theorem resize_fields_inv (pc : PointCloud α) (count : Nat) (v : α)
    (pc' : PointCloud α)
    (hwh : pc.width * pc.height < M32) (hc : count < M32)
    (h : (pc.points.resize count v).map (fun p =>
        if pc.width * pc.height % M32 = count then { pc with points := p }
        else { pc with points := p, width := count % M32, height := 1 })
      = .ok pc') :
    pc'.width * pc'.height = pc'.points.data.length := by
  obtain ⟨hlen, heq, hne⟩ := resize_fields pc count v pc' hwh hc h
  by_cases he : pc.width * pc.height = count
  · obtain ⟨h1, h2⟩ := heq he
    rw [h1, h2, hlen, he]
  · obtain ⟨h1, h2⟩ := hne he
    rw [h1, h2, hlen, Nat.mul_one]

/-- Field characterization of the operations that set both dimensions
explicitly (two-dimension `resize` and two-dimension `assign`). -/
theorem set_dims_fields (e : Except Err (SpanOrVector α)) (pc : PointCloud α)
    (w h : Nat) (pc' : PointCloud α)
    (hlen : ∀ p, e = .ok p → p.data.length = w * h % M32)
    (hmap : e.map (fun p => { pc with points := p, width := w, height := h })
      = .ok pc') :
    pc'.points.data.length = w * h % M32 ∧ pc'.width = w ∧ pc'.height = h := by
  cases e with
  | error e => simp [Except.map] at hmap
  | ok p =>
    simp [Except.map] at hmap
    subst hmap
    exact ⟨hlen p rfl, rfl, rfl⟩

/-- Dimension-setting operations restore the invariant when the product fits
in 32 bits. -/
theorem set_dims_inv (e : Except Err (SpanOrVector α)) (pc : PointCloud α)
    (w h : Nat) (pc' : PointCloud α) (hwh : w * h < M32)
    (hlen : ∀ p, e = .ok p → p.data.length = w * h % M32)
    (hmap : e.map (fun p => { pc with points := p, width := w, height := h })
      = .ok pc') :
    pc'.width * pc'.height = pc'.points.data.length := by
  obtain ⟨h1, h2, h3⟩ := set_dims_fields e pc w h pc' hlen hmap
  rw [h1, h2, h3, Nat.mod_eq_of_lt hwh]

/-- Collapsing operations satisfy `width = length` and `height = 1` whenever
the new length fits in 32 bits. -/
theorem collapse_fields_lt (e : Except Err (SpanOrVector α))
    (f : SpanOrVector α → PointCloud α)
    (hf : ∀ p, (f p).points = p ∧ (f p).width = p.data.length % M32 ∧
      (f p).height = 1)
    (pc' : PointCloud α) (h : e.map f = .ok pc')
    (hl : pc'.points.data.length < M32) :
    pc'.width = pc'.points.data.length ∧ pc'.height = 1 := by
  obtain ⟨h1, h2⟩ := collapse_fields e f hf pc' h
  exact ⟨h1.trans (Nat.mod_eq_of_lt hl), h2⟩

/-- Collapsing operations restore the invariant when the new length fits in
32 bits. -/
theorem collapse_inv (e : Except Err (SpanOrVector α))
    (f : SpanOrVector α → PointCloud α)
    (hf : ∀ p, (f p).points = p ∧ (f p).width = p.data.length % M32 ∧
      (f p).height = 1)
    (pc' : PointCloud α) (h : e.map f = .ok pc')
    (hl : pc'.points.data.length < M32) :
    pc'.width * pc'.height = pc'.points.data.length := by
  obtain ⟨h1, h2⟩ := collapse_fields_lt e f hf pc' h hl
  rw [h1, h2, Nat.mul_one]

/-- Field characterization of plain range `assign`. -/
theorem assign_list_ok_data (pc : PointCloud α) (xs : List α)
    (c : PointCloud α) (h : pc.assign_list xs = .ok c) :
    c.points.data = xs ∧ c.width = xs.length % M32 ∧ c.height = 1 := by
  unfold PointCloud.assign_list at h
  cases ha : pc.points.assign_list xs with
  | error e => rw [ha] at h; simp [Except.map] at h
  | ok p =>
    rw [ha] at h
    simp [Except.map] at h
    subst h
    have hd := sv_assign_list_ok _ _ _ ha
    refine ⟨hd, ?_, rfl⟩
    show p.data.length % M32 = xs.length % M32
    rw [hd]

/-- C3 (corrected): the conditional shape policy the claim states for all four
single-dimension mutations is implemented only by `resize`: `resize` keeps
`width`/`height` exactly when the new length equals the old `width * height`
and otherwise collapses to `width = new length, height = 1`; `assign`,
`insert`, and `erase` collapse unconditionally, even when the new length
equals the old `width * height` (all quantities below 2^32). -/
theorem single_dim_mutations_shape (α : Type) [Inhabited α] :
    (∀ (pc : PointCloud α) (count : Nat) (pc' : PointCloud α),
      pc.width * pc.height < M32 → count < M32 → pc.resize1 count = .ok pc' →
      pc'.points.data.length = count ∧
      (pc.width * pc.height = count →
        pc'.width = pc.width ∧ pc'.height = pc.height) ∧
      (pc.width * pc.height ≠ count →
        pc'.width = pc'.points.data.length ∧ pc'.height = 1)) ∧
    (∀ (pc : PointCloud α) (count : Nat) (v : α) (pc' : PointCloud α),
      pc.width * pc.height < M32 → count < M32 → pc.resize1v count v = .ok pc' →
      pc'.points.data.length = count ∧
      (pc.width * pc.height = count →
        pc'.width = pc.width ∧ pc'.height = pc.height) ∧
      (pc.width * pc.height ≠ count →
        pc'.width = pc'.points.data.length ∧ pc'.height = 1)) ∧
    (∀ (pc : PointCloud α) (count : Nat) (v : α) (pc' : PointCloud α),
      pc.assign_count count v = .ok pc' → pc'.points.data.length < M32 →
      pc'.width = pc'.points.data.length ∧ pc'.height = 1) ∧
    (∀ (pc : PointCloud α) (xs : List α) (pc' : PointCloud α),
      pc.assign_list xs = .ok pc' → pc'.points.data.length < M32 →
      pc'.width = pc'.points.data.length ∧ pc'.height = 1) ∧
    (∀ (pc : PointCloud α) (i : Nat) (x : α) (pc' : PointCloud α),
      pc.insert1 i x = .ok pc' → pc'.points.data.length < M32 →
      pc'.width = pc'.points.data.length ∧ pc'.height = 1) ∧
    (∀ (pc : PointCloud α) (i n : Nat) (x : α) (pc' : PointCloud α),
      pc.insertN i n x = .ok pc' → pc'.points.data.length < M32 →
      pc'.width = pc'.points.data.length ∧ pc'.height = 1) ∧
    (∀ (pc : PointCloud α) (i : Nat) (xs : List α) (pc' : PointCloud α),
      pc.insert_range i xs = .ok pc' → pc'.points.data.length < M32 →
      pc'.width = pc'.points.data.length ∧ pc'.height = 1) ∧
    (∀ (pc : PointCloud α) (i : Nat) (pc' : PointCloud α),
      pc.erase1 i = .ok pc' → pc'.points.data.length < M32 →
      pc'.width = pc'.points.data.length ∧ pc'.height = 1) ∧
    (∀ (pc : PointCloud α) (i j : Nat) (pc' : PointCloud α),
      pc.erase_range i j = .ok pc' → pc'.points.data.length < M32 →
      pc'.width = pc'.points.data.length ∧ pc'.height = 1) := by
  refine ⟨?_, ?_, ?_, ?_, ?_, ?_, ?_, ?_, ?_⟩
  · intro pc count pc' hwh hc h
    obtain ⟨h1, h2, h3⟩ := resize_fields pc count default pc' hwh hc h
    exact ⟨h1, h2, fun hne => by
      obtain ⟨ha, hb⟩ := h3 hne
      exact ⟨by rw [ha, h1], hb⟩⟩
  · intro pc count v pc' hwh hc h
    obtain ⟨h1, h2, h3⟩ := resize_fields pc count v pc' hwh hc h
    exact ⟨h1, h2, fun hne => by
      obtain ⟨ha, hb⟩ := h3 hne
      exact ⟨by rw [ha, h1], hb⟩⟩
  · intro pc count v pc' h hl
    exact collapse_fields_lt _ _ (fun p => ⟨rfl, rfl, rfl⟩) pc' h hl
  · intro pc xs pc' h hl
    exact collapse_fields_lt _ _ (fun p => ⟨rfl, rfl, rfl⟩) pc' h hl
  · intro pc i x pc' h hl
    exact collapse_fields_lt _ _ (fun p => ⟨rfl, rfl, rfl⟩) pc' h hl
  · intro pc i n x pc' h hl
    exact collapse_fields_lt _ _ (fun p => ⟨rfl, rfl, rfl⟩) pc' h hl
  · intro pc i xs pc' h hl
    exact collapse_fields_lt _ _ (fun p => ⟨rfl, rfl, rfl⟩) pc' h hl
  · intro pc i pc' h hl
    exact collapse_fields_lt _ _ (fun p => ⟨rfl, rfl, rfl⟩) pc' h hl
  · intro pc i j pc' h hl
    exact collapse_fields_lt _ _ (fun p => ⟨rfl, rfl, rfl⟩) pc' h hl

/-- Counterexample to C3 as stated: on a 2-by-2 grid, `assign(4, value)`
produces a new length (4) equal to the old `width * height` (4), yet the code
still collapses the shape to `width = 4, height = 1` instead of leaving the
dimensions unchanged. -/
theorem assign_preserving_length_still_collapses :
    (PointCloud.fill 2 2 (0 : Nat)).width
        * (PointCloud.fill 2 2 (0 : Nat)).height = 4 ∧
    (PointCloud.fill 2 2 (0 : Nat)).height = 2 ∧
    ((PointCloud.fill 2 2 (0 : Nat)).assign_count 4 7).toOption.map
        (fun c => (c.points.data.length, c.width, c.height))
      = some (4, 4, 1) := by decide

/-- Witness for C3 (amended) at concrete grids: `resize` keeps a 2-by-2 shape
when resized to 4 and collapses when resized to 5; `assign`, `insert` and
`erase` collapse. -/
theorem single_dim_mutations_shape_witness :
    ((((PointCloud.fill 2 2 (0 : Nat)).resize1 4).toOption.getD
        (PointCloud.fill 2 2 0)).width = 2 ∧
      (((PointCloud.fill 2 2 (0 : Nat)).resize1 4).toOption.getD
        (PointCloud.fill 2 2 0)).height = 2) ∧
    ((((PointCloud.fill 2 2 (0 : Nat)).resize1 5).toOption.getD
        (PointCloud.fill 2 2 0)).width
        = (((PointCloud.fill 2 2 (0 : Nat)).resize1 5).toOption.getD
          (PointCloud.fill 2 2 0)).points.data.length ∧
      (((PointCloud.fill 2 2 (0 : Nat)).resize1 5).toOption.getD
        (PointCloud.fill 2 2 0)).height = 1) ∧
    ((((PointCloud.fill 2 2 (0 : Nat)).assign_count 5 7).toOption.getD
        (PointCloud.fill 2 2 0)).width
        = (((PointCloud.fill 2 2 (0 : Nat)).assign_count 5 7).toOption.getD
          (PointCloud.fill 2 2 0)).points.data.length ∧
      (((PointCloud.fill 2 2 (0 : Nat)).assign_count 5 7).toOption.getD
        (PointCloud.fill 2 2 0)).height = 1) ∧
    ((((PointCloud.fill 2 2 (0 : Nat)).erase1 1).toOption.getD
        (PointCloud.fill 2 2 0)).width
        = (((PointCloud.fill 2 2 (0 : Nat)).erase1 1).toOption.getD
          (PointCloud.fill 2 2 0)).points.data.length ∧
      (((PointCloud.fill 2 2 (0 : Nat)).erase1 1).toOption.getD
        (PointCloud.fill 2 2 0)).height = 1) := by
  have h := single_dim_mutations_shape Nat
  refine ⟨?_, ?_, ?_, ?_⟩
  · have h1 := (h.1 (PointCloud.fill 2 2 (0 : Nat)) 4
      (((PointCloud.fill 2 2 (0 : Nat)).resize1 4).toOption.getD
        (PointCloud.fill 2 2 0)) (by decide) (by decide) (by decide))
    exact h1.2.1 (by decide)
  · have h1 := (h.1 (PointCloud.fill 2 2 (0 : Nat)) 5
      (((PointCloud.fill 2 2 (0 : Nat)).resize1 5).toOption.getD
        (PointCloud.fill 2 2 0)) (by decide) (by decide) (by decide))
    exact h1.2.2 (by decide)
  · exact h.2.2.1 (PointCloud.fill 2 2 (0 : Nat)) 5 7
      (((PointCloud.fill 2 2 (0 : Nat)).assign_count 5 7).toOption.getD
        (PointCloud.fill 2 2 0)) (by decide) (by decide)
  · exact h.2.2.2.2.2.2.2.1 (PointCloud.fill 2 2 (0 : Nat)) 1
      (((PointCloud.fill 2 2 (0 : Nat)).erase1 1).toOption.getD
        (PointCloud.fill 2 2 0)) (by decide) (by decide)


/-- C1 (corrected): `isOrganized()` returns true exactly when `height > 1`,
and after every successful non-transient mutating call the invariant
`width * height = buffer length` holds, provided every new size and every
`width * height` product involved fits in 32 bits.  Without that proviso the
invariant can be broken by the `uint32` narrowing (see the counterexample
theorem). -/
theorem organized_iff_and_shape_invariant (α : Type) [Inhabited α] :
    (∀ pc : PointCloud α, pc.isOrganized = true ↔ 1 < pc.height) ∧
    (∀ (pc : PointCloud α) (count : Nat) (pc' : PointCloud α),
      pc.width * pc.height < M32 → count < M32 → pc.resize1 count = .ok pc' →
      pc'.width * pc'.height = pc'.points.data.length) ∧
    (∀ (pc : PointCloud α) (count : Nat) (v : α) (pc' : PointCloud α),
      pc.width * pc.height < M32 → count < M32 → pc.resize1v count v = .ok pc' →
      pc'.width * pc'.height = pc'.points.data.length) ∧
    (∀ (pc : PointCloud α) (w h : Nat) (pc' : PointCloud α),
      w * h < M32 → pc.resize2 w h = .ok pc' →
      pc'.width * pc'.height = pc'.points.data.length) ∧
    (∀ (pc : PointCloud α) (w h : Nat) (v : α) (pc' : PointCloud α),
      w * h < M32 → pc.resize2v w h v = .ok pc' →
      pc'.width * pc'.height = pc'.points.data.length) ∧
    (∀ (pc : PointCloud α) (count : Nat) (v : α) (pc' : PointCloud α),
      pc.assign_count count v = .ok pc' → pc'.points.data.length < M32 →
      pc'.width * pc'.height = pc'.points.data.length) ∧
    (∀ (pc : PointCloud α) (w h : Nat) (v : α) (pc' : PointCloud α),
      w * h < M32 → pc.assign2 w h v = .ok pc' →
      pc'.width * pc'.height = pc'.points.data.length) ∧
    (∀ (pc : PointCloud α) (xs : List α) (pc' : PointCloud α),
      pc.assign_list xs = .ok pc' → pc'.points.data.length < M32 →
      pc'.width * pc'.height = pc'.points.data.length) ∧
    (∀ (pc : PointCloud α) (xs : List α) (nw : Nat) (r : PointCloud α × Bool),
      xs.length < M32 → nw < M32 → pc.assign_list_w xs nw = .ok r →
      r.1.width * r.1.height = r.1.points.data.length) ∧
    (∀ (pc : PointCloud α) (x : α) (pc' : PointCloud α),
      pc.push_back x = .ok pc' → pc'.points.data.length < M32 →
      pc'.width * pc'.height = pc'.points.data.length) ∧
    (∀ (pc : PointCloud α) (x : α) (pc' : PointCloud α),
      pc.emplace_back x = .ok pc' → pc'.points.data.length < M32 →
      pc'.width * pc'.height = pc'.points.data.length) ∧
    (∀ (pc : PointCloud α) (i : Nat) (x : α) (pc' : PointCloud α),
      pc.insert1 i x = .ok pc' → pc'.points.data.length < M32 →
      pc'.width * pc'.height = pc'.points.data.length) ∧
    (∀ (pc : PointCloud α) (i n : Nat) (x : α) (pc' : PointCloud α),
      pc.insertN i n x = .ok pc' → pc'.points.data.length < M32 →
      pc'.width * pc'.height = pc'.points.data.length) ∧
    (∀ (pc : PointCloud α) (i : Nat) (xs : List α) (pc' : PointCloud α),
      pc.insert_range i xs = .ok pc' → pc'.points.data.length < M32 →
      pc'.width * pc'.height = pc'.points.data.length) ∧
    (∀ (pc : PointCloud α) (i : Nat) (x : α) (pc' : PointCloud α),
      pc.emplace1 i x = .ok pc' → pc'.points.data.length < M32 →
      pc'.width * pc'.height = pc'.points.data.length) ∧
    (∀ (pc : PointCloud α) (i : Nat) (pc' : PointCloud α),
      pc.erase1 i = .ok pc' → pc'.points.data.length < M32 →
      pc'.width * pc'.height = pc'.points.data.length) ∧
    (∀ (pc : PointCloud α) (i j : Nat) (pc' : PointCloud α),
      pc.erase_range i j = .ok pc' → pc'.points.data.length < M32 →
      pc'.width * pc'.height = pc'.points.data.length) ∧
    (∀ pc : PointCloud α,
      pc.clear.width * pc.clear.height = pc.clear.points.data.length) ∧
    (∀ c1 c2 c : PointCloud α,
      PointCloud.concat2 c1 c2 = .ok c → c.points.data.length < M32 →
      c.width * c.height = c.points.data.length) ∧
    (∀ c1 c2 c : PointCloud α,
      PointCloud.concat3 c1 c2 = .ok c → c.points.data.length < M32 →
      c.width * c.height = c.points.data.length) := by
  refine ⟨?_, ?_, ?_, ?_, ?_, ?_, ?_, ?_, ?_, ?_, ?_, ?_, ?_, ?_, ?_, ?_, ?_,
    ?_, ?_, ?_⟩
  · intro pc
    simp [PointCloud.isOrganized]
  · intro pc count pc' hwh hc h
    exact resize_fields_inv pc count default pc' hwh hc h
  · intro pc count v pc' hwh hc h
    exact resize_fields_inv pc count v pc' hwh hc h
  · intro pc w h pc' hwh hmap
    exact set_dims_inv _ pc w h pc' hwh
      (fun p hp => sv_resize_ok_length _ _ _ _ hp) hmap
  · intro pc w h v pc' hwh hmap
    exact set_dims_inv _ pc w h pc' hwh
      (fun p hp => sv_resize_ok_length _ _ _ _ hp) hmap
  · intro pc count v pc' h hl
    exact collapse_inv _ _ (fun p => ⟨rfl, rfl, rfl⟩) pc' h hl
  · intro pc w h v pc' hwh hmap
    refine set_dims_inv _ pc w h pc' hwh (fun p hp => ?_) hmap
    rw [sv_assign_count_ok _ _ _ _ hp]
    simp
  · intro pc xs pc' h hl
    exact collapse_inv _ _ (fun p => ⟨rfl, rfl, rfl⟩) pc' h hl
  · intro pc xs nw r hxs hnw h
    unfold PointCloud.assign_list_w at h
    by_cases h0 : nw = 0
    · rw [if_pos h0] at h
      cases ha : pc.assign_list xs with
      | error e => rw [ha] at h; simp [Except.map] at h
      | ok c =>
        rw [ha] at h
        simp [Except.map] at h
        subst h
        obtain ⟨hd, hwid, hht⟩ := assign_list_ok_data pc xs c ha
        show c.width * c.height = c.points.data.length
        rw [hwid, hht, Nat.mul_one, hd, Nat.mod_eq_of_lt hxs]
    · rw [if_neg h0] at h
      cases ha : pc.points.assign_list xs with
      | error e => rw [ha] at h; simp [Except.map] at h
      | ok p =>
        rw [ha] at h
        simp [Except.map] at h
        have hd : p.data = xs := sv_assign_list_ok _ _ _ ha
        rw [hd] at h
        have hdivlt : xs.length / nw < M32 :=
          lt_of_le_of_lt (Nat.div_le_self _ _) hxs
        rw [Nat.mod_eq_of_lt hdivlt] at h
        have hprodle : nw * (xs.length / nw) ≤ xs.length := by
          rw [Nat.mul_comm]
          exact Nat.div_mul_le_self _ _
        rw [Nat.mod_eq_of_lt (lt_of_le_of_lt hprodle hxs)] at h
        split at h
        · rename_i hcond
          subst h
          show nw * (xs.length / nw) = p.data.length
          rw [hd]
          exact hcond
        · subst h
          show xs.length % M32 * 1 = p.data.length
          rw [hd, Nat.mul_one, Nat.mod_eq_of_lt hxs]
  · intro pc x pc' h hl
    exact collapse_inv _ _ (fun p => ⟨rfl, rfl, rfl⟩) pc' h hl
  · intro pc x pc' h hl
    exact collapse_inv _ _ (fun p => ⟨rfl, rfl, rfl⟩) pc' h hl
  · intro pc i x pc' h hl
    exact collapse_inv _ _ (fun p => ⟨rfl, rfl, rfl⟩) pc' h hl
  · intro pc i n x pc' h hl
    exact collapse_inv _ _ (fun p => ⟨rfl, rfl, rfl⟩) pc' h hl
  · intro pc i xs pc' h hl
    exact collapse_inv _ _ (fun p => ⟨rfl, rfl, rfl⟩) pc' h hl
  · intro pc i x pc' h hl
    exact collapse_inv _ _ (fun p => ⟨rfl, rfl, rfl⟩) pc' h hl
  · intro pc i pc' h hl
    exact collapse_inv _ _ (fun p => ⟨rfl, rfl, rfl⟩) pc' h hl
  · intro pc i j pc' h hl
    exact collapse_inv _ _ (fun p => ⟨rfl, rfl, rfl⟩) pc' h hl
  · intro pc
    rfl
  · intro c1 c2 c h hl
    exact collapse_inv _ _ (fun p => ⟨rfl, rfl, rfl⟩) c h hl
  · intro c1 c2 c h hl
    unfold PointCloud.concat3 PointCloud.concat2 at h
    exact collapse_inv _ _ (fun p => ⟨rfl, rfl, rfl⟩) c h hl

/-- Counterexample to C1 as stated: the two-dimension resize with
`width = height = 65536` computes the buffer length as the `uint32` product
`65536 * 65536 = 0`, leaving a grid whose `width * height` is 2^32 while its
buffer is empty — the invariant `width * height = buffer length` does not hold
immediately after this non-transient mutating call. -/
theorem resize2_overflow_breaks_invariant :
    ((PointCloud.fill 0 0 (0 : Nat)).resize2 65536 65536).toOption.map
        (fun c => (c.width * c.height, c.points.data.length))
      = some (4294967296, 0) ∧
    (4294967296 : Nat) ≠ 0 := by decide

/-- Witness for C1 (amended) at concrete grids. -/
theorem organized_iff_and_shape_invariant_witness :
    ((PointCloud.fill 2 2 (0 : Nat)).isOrganized = true ↔
      1 < (PointCloud.fill 2 2 (0 : Nat)).height) ∧
    ((((PointCloud.fill 2 2 (0 : Nat)).resize1 5).toOption.getD
        (PointCloud.fill 2 2 0)).width
      * (((PointCloud.fill 2 2 (0 : Nat)).resize1 5).toOption.getD
        (PointCloud.fill 2 2 0)).height
      = (((PointCloud.fill 2 2 (0 : Nat)).resize1 5).toOption.getD
        (PointCloud.fill 2 2 0)).points.data.length) ∧
    ((((PointCloud.fill 2 2 (0 : Nat)).resize1v 3 9).toOption.getD
        (PointCloud.fill 2 2 0)).width
      * (((PointCloud.fill 2 2 (0 : Nat)).resize1v 3 9).toOption.getD
        (PointCloud.fill 2 2 0)).height
      = (((PointCloud.fill 2 2 (0 : Nat)).resize1v 3 9).toOption.getD
        (PointCloud.fill 2 2 0)).points.data.length) ∧
    ((((PointCloud.fill 2 2 (0 : Nat)).resize2 3 2).toOption.getD
        (PointCloud.fill 2 2 0)).width
      * (((PointCloud.fill 2 2 (0 : Nat)).resize2 3 2).toOption.getD
        (PointCloud.fill 2 2 0)).height
      = (((PointCloud.fill 2 2 (0 : Nat)).resize2 3 2).toOption.getD
        (PointCloud.fill 2 2 0)).points.data.length) ∧
    ((((PointCloud.fill 2 2 (0 : Nat)).resize2v 2 3 9).toOption.getD
        (PointCloud.fill 2 2 0)).width
      * (((PointCloud.fill 2 2 (0 : Nat)).resize2v 2 3 9).toOption.getD
        (PointCloud.fill 2 2 0)).height
      = (((PointCloud.fill 2 2 (0 : Nat)).resize2v 2 3 9).toOption.getD
        (PointCloud.fill 2 2 0)).points.data.length) ∧
    ((((PointCloud.fill 2 2 (0 : Nat)).assign_count 5 7).toOption.getD
        (PointCloud.fill 2 2 0)).width
      * (((PointCloud.fill 2 2 (0 : Nat)).assign_count 5 7).toOption.getD
        (PointCloud.fill 2 2 0)).height
      = (((PointCloud.fill 2 2 (0 : Nat)).assign_count 5 7).toOption.getD
        (PointCloud.fill 2 2 0)).points.data.length) ∧
    ((((PointCloud.fill 2 2 (0 : Nat)).assign2 3 2 7).toOption.getD
        (PointCloud.fill 2 2 0)).width
      * (((PointCloud.fill 2 2 (0 : Nat)).assign2 3 2 7).toOption.getD
        (PointCloud.fill 2 2 0)).height
      = (((PointCloud.fill 2 2 (0 : Nat)).assign2 3 2 7).toOption.getD
        (PointCloud.fill 2 2 0)).points.data.length) ∧
    ((((PointCloud.fill 2 2 (0 : Nat)).assign_list [1, 2, 3]).toOption.getD
        (PointCloud.fill 2 2 0)).width
      * (((PointCloud.fill 2 2 (0 : Nat)).assign_list [1, 2, 3]).toOption.getD
        (PointCloud.fill 2 2 0)).height
      = (((PointCloud.fill 2 2 (0 : Nat)).assign_list [1, 2, 3]).toOption.getD
        (PointCloud.fill 2 2 0)).points.data.length) ∧
    ((((PointCloud.fill 2 2 (0 : Nat)).assign_list_w [1, 2, 3, 4, 5, 6]
          3).toOption.getD (PointCloud.fill 2 2 0, false)).1.width
      * (((PointCloud.fill 2 2 (0 : Nat)).assign_list_w [1, 2, 3, 4, 5, 6]
          3).toOption.getD (PointCloud.fill 2 2 0, false)).1.height
      = (((PointCloud.fill 2 2 (0 : Nat)).assign_list_w [1, 2, 3, 4, 5, 6]
          3).toOption.getD (PointCloud.fill 2 2 0, false)).1.points.data.length) ∧
    ((((PointCloud.fill 2 2 (0 : Nat)).push_back 7).toOption.getD
        (PointCloud.fill 2 2 0)).width
      * (((PointCloud.fill 2 2 (0 : Nat)).push_back 7).toOption.getD
        (PointCloud.fill 2 2 0)).height
      = (((PointCloud.fill 2 2 (0 : Nat)).push_back 7).toOption.getD
        (PointCloud.fill 2 2 0)).points.data.length) ∧
    ((((PointCloud.fill 2 2 (0 : Nat)).emplace_back 7).toOption.getD
        (PointCloud.fill 2 2 0)).width
      * (((PointCloud.fill 2 2 (0 : Nat)).emplace_back 7).toOption.getD
        (PointCloud.fill 2 2 0)).height
      = (((PointCloud.fill 2 2 (0 : Nat)).emplace_back 7).toOption.getD
        (PointCloud.fill 2 2 0)).points.data.length) ∧
    ((((PointCloud.fill 2 2 (0 : Nat)).insert1 1 7).toOption.getD
        (PointCloud.fill 2 2 0)).width
      * (((PointCloud.fill 2 2 (0 : Nat)).insert1 1 7).toOption.getD
        (PointCloud.fill 2 2 0)).height
      = (((PointCloud.fill 2 2 (0 : Nat)).insert1 1 7).toOption.getD
        (PointCloud.fill 2 2 0)).points.data.length) ∧
    ((((PointCloud.fill 2 2 (0 : Nat)).insertN 1 2 7).toOption.getD
        (PointCloud.fill 2 2 0)).width
      * (((PointCloud.fill 2 2 (0 : Nat)).insertN 1 2 7).toOption.getD
        (PointCloud.fill 2 2 0)).height
      = (((PointCloud.fill 2 2 (0 : Nat)).insertN 1 2 7).toOption.getD
        (PointCloud.fill 2 2 0)).points.data.length) ∧
    ((((PointCloud.fill 2 2 (0 : Nat)).insert_range 1 [7, 8]).toOption.getD
        (PointCloud.fill 2 2 0)).width
      * (((PointCloud.fill 2 2 (0 : Nat)).insert_range 1 [7, 8]).toOption.getD
        (PointCloud.fill 2 2 0)).height
      = (((PointCloud.fill 2 2 (0 : Nat)).insert_range 1 [7, 8]).toOption.getD
        (PointCloud.fill 2 2 0)).points.data.length) ∧
    ((((PointCloud.fill 2 2 (0 : Nat)).emplace1 1 7).toOption.getD
        (PointCloud.fill 2 2 0)).width
      * (((PointCloud.fill 2 2 (0 : Nat)).emplace1 1 7).toOption.getD
        (PointCloud.fill 2 2 0)).height
      = (((PointCloud.fill 2 2 (0 : Nat)).emplace1 1 7).toOption.getD
        (PointCloud.fill 2 2 0)).points.data.length) ∧
    ((((PointCloud.fill 2 2 (0 : Nat)).erase1 1).toOption.getD
        (PointCloud.fill 2 2 0)).width
      * (((PointCloud.fill 2 2 (0 : Nat)).erase1 1).toOption.getD
        (PointCloud.fill 2 2 0)).height
      = (((PointCloud.fill 2 2 (0 : Nat)).erase1 1).toOption.getD
        (PointCloud.fill 2 2 0)).points.data.length) ∧
    ((((PointCloud.fill 2 2 (0 : Nat)).erase_range 1 3).toOption.getD
        (PointCloud.fill 2 2 0)).width
      * (((PointCloud.fill 2 2 (0 : Nat)).erase_range 1 3).toOption.getD
        (PointCloud.fill 2 2 0)).height
      = (((PointCloud.fill 2 2 (0 : Nat)).erase_range 1 3).toOption.getD
        (PointCloud.fill 2 2 0)).points.data.length) ∧
    ((PointCloud.fill 2 2 (0 : Nat)).clear.width
      * (PointCloud.fill 2 2 (0 : Nat)).clear.height
      = (PointCloud.fill 2 2 (0 : Nat)).clear.points.data.length) ∧
    (((PointCloud.concat2 (PointCloud.fill 2 2 (0 : Nat))
          (PointCloud.fill 2 1 5)).toOption.getD
        (PointCloud.fill 2 2 0)).width
      * ((PointCloud.concat2 (PointCloud.fill 2 2 (0 : Nat))
          (PointCloud.fill 2 1 5)).toOption.getD
        (PointCloud.fill 2 2 0)).height
      = ((PointCloud.concat2 (PointCloud.fill 2 2 (0 : Nat))
          (PointCloud.fill 2 1 5)).toOption.getD
        (PointCloud.fill 2 2 0)).points.data.length) ∧
    (((PointCloud.concat3 (PointCloud.fill 2 2 (0 : Nat))
          (PointCloud.fill 2 1 5)).toOption.getD
        (PointCloud.fill 2 2 0)).width
      * ((PointCloud.concat3 (PointCloud.fill 2 2 (0 : Nat))
          (PointCloud.fill 2 1 5)).toOption.getD
        (PointCloud.fill 2 2 0)).height
      = ((PointCloud.concat3 (PointCloud.fill 2 2 (0 : Nat))
          (PointCloud.fill 2 1 5)).toOption.getD
        (PointCloud.fill 2 2 0)).points.data.length) := by
  have h := organized_iff_and_shape_invariant Nat
  refine ⟨h.1 _, ?_, ?_, ?_, ?_, ?_, ?_, ?_, ?_, ?_, ?_, ?_, ?_, ?_, ?_, ?_,
    ?_, h.2.2.2.2.2.2.2.2.2.2.2.2.2.2.2.2.2.1 _, ?_, ?_⟩
  · exact h.2.1 (PointCloud.fill 2 2 (0 : Nat)) 5
      (((PointCloud.fill 2 2 (0 : Nat)).resize1 5).toOption.getD
      (PointCloud.fill 2 2 0))
      (by decide) (by decide) (by decide)
  · exact h.2.2.1 (PointCloud.fill 2 2 (0 : Nat)) 3 9
      (((PointCloud.fill 2 2 (0 : Nat)).resize1v 3 9).toOption.getD
      (PointCloud.fill 2 2 0))
      (by decide) (by decide) (by decide)
  · exact h.2.2.2.1 (PointCloud.fill 2 2 (0 : Nat)) 3 2
      (((PointCloud.fill 2 2 (0 : Nat)).resize2 3 2).toOption.getD
      (PointCloud.fill 2 2 0))
      (by decide) (by decide)
  · exact h.2.2.2.2.1 (PointCloud.fill 2 2 (0 : Nat)) 2 3 9
      (((PointCloud.fill 2 2 (0 : Nat)).resize2v 2 3 9).toOption.getD
      (PointCloud.fill 2 2 0))
      (by decide) (by decide)
  · exact h.2.2.2.2.2.1 (PointCloud.fill 2 2 (0 : Nat)) 5 7
      (((PointCloud.fill 2 2 (0 : Nat)).assign_count 5 7).toOption.getD
      (PointCloud.fill 2 2 0))
      (by decide) (by decide)
  · exact h.2.2.2.2.2.2.1 (PointCloud.fill 2 2 (0 : Nat)) 3 2 7
      (((PointCloud.fill 2 2 (0 : Nat)).assign2 3 2 7).toOption.getD
      (PointCloud.fill 2 2 0))
      (by decide) (by decide)
  · exact h.2.2.2.2.2.2.2.1 (PointCloud.fill 2 2 (0 : Nat)) [1, 2, 3]
      (((PointCloud.fill 2 2 (0 : Nat)).assign_list [1, 2, 3]).toOption.getD
      (PointCloud.fill 2 2 0))
      (by decide) (by decide)
  · exact h.2.2.2.2.2.2.2.2.1 (PointCloud.fill 2 2 (0 : Nat)) [1, 2, 3, 4, 5, 6] 3
      (((PointCloud.fill 2 2 (0 : Nat)).assign_list_w [1, 2, 3, 4, 5, 6] 3).toOption.getD
      ((PointCloud.fill 2 2 0), false))
      (by decide) (by decide) (by decide)
  · exact h.2.2.2.2.2.2.2.2.2.1 (PointCloud.fill 2 2 (0 : Nat)) 7
      (((PointCloud.fill 2 2 (0 : Nat)).push_back 7).toOption.getD
      (PointCloud.fill 2 2 0))
      (by decide) (by decide)
  · exact h.2.2.2.2.2.2.2.2.2.2.1 (PointCloud.fill 2 2 (0 : Nat)) 7
      (((PointCloud.fill 2 2 (0 : Nat)).emplace_back 7).toOption.getD
      (PointCloud.fill 2 2 0))
      (by decide) (by decide)
  · exact h.2.2.2.2.2.2.2.2.2.2.2.1 (PointCloud.fill 2 2 (0 : Nat)) 1 7
      (((PointCloud.fill 2 2 (0 : Nat)).insert1 1 7).toOption.getD
      (PointCloud.fill 2 2 0))
      (by decide) (by decide)
  · exact h.2.2.2.2.2.2.2.2.2.2.2.2.1 (PointCloud.fill 2 2 (0 : Nat)) 1 2 7
      (((PointCloud.fill 2 2 (0 : Nat)).insertN 1 2 7).toOption.getD
      (PointCloud.fill 2 2 0))
      (by decide) (by decide)
  · exact h.2.2.2.2.2.2.2.2.2.2.2.2.2.1 (PointCloud.fill 2 2 (0 : Nat)) 1 [7, 8]
      (((PointCloud.fill 2 2 (0 : Nat)).insert_range 1 [7, 8]).toOption.getD
      (PointCloud.fill 2 2 0))
      (by decide) (by decide)
  · exact h.2.2.2.2.2.2.2.2.2.2.2.2.2.2.1 (PointCloud.fill 2 2 (0 : Nat)) 1 7
      (((PointCloud.fill 2 2 (0 : Nat)).emplace1 1 7).toOption.getD
      (PointCloud.fill 2 2 0))
      (by decide) (by decide)
  · exact h.2.2.2.2.2.2.2.2.2.2.2.2.2.2.2.1 (PointCloud.fill 2 2 (0 : Nat)) 1
      (((PointCloud.fill 2 2 (0 : Nat)).erase1 1).toOption.getD
      (PointCloud.fill 2 2 0))
      (by decide) (by decide)
  · exact h.2.2.2.2.2.2.2.2.2.2.2.2.2.2.2.2.1 (PointCloud.fill 2 2 (0 : Nat)) 1 3
      (((PointCloud.fill 2 2 (0 : Nat)).erase_range 1 3).toOption.getD
      (PointCloud.fill 2 2 0))
      (by decide) (by decide)
  · exact h.2.2.2.2.2.2.2.2.2.2.2.2.2.2.2.2.2.2.1 (PointCloud.fill 2 2 (0 : Nat)) (PointCloud.fill 2 1 5)
      ((PointCloud.concat2 (PointCloud.fill 2 2 (0 : Nat)) (PointCloud.fill 2 1 5)).toOption.getD
      (PointCloud.fill 2 2 0))
      (by decide) (by decide)
  · exact h.2.2.2.2.2.2.2.2.2.2.2.2.2.2.2.2.2.2.2 (PointCloud.fill 2 2 (0 : Nat)) (PointCloud.fill 2 1 5)
      ((PointCloud.concat3 (PointCloud.fill 2 2 (0 : Nat)) (PointCloud.fill 2 1 5)).toOption.getD
      (PointCloud.fill 2 2 0))
      (by decide) (by decide)

/-- In-place concatenation into an owning grid always succeeds. -/
theorem concat2_total (c1 c2 : PointCloud α) (hns : c1.points.isSpan = false) :
    ∃ c, PointCloud.concat2 c1 c2 = .ok c := by
  unfold PointCloud.concat2 SpanOrVector.insert_range
  simp [hns, Except.map]

/-- Field characterization of in-place concatenation on success. -/
theorem concat2_ok_fields (c1 c2 c : PointCloud α)
    (h : PointCloud.concat2 c1 c2 = .ok c) :
    c.points.data = c1.points.data ++ c2.points.data ∧
    c.width = (c1.points.data.length + c2.points.data.length) % M32 ∧
    c.height = 1 ∧
    c.header.stamp = max c1.header.stamp c2.header.stamp ∧
    c.is_dense = (c1.is_dense && c2.is_dense) := by
  unfold PointCloud.concat2 at h
  cases hsv : c1.points.insert_range c1.points.data.length c2.points.data with
  | error e => rw [hsv] at h; simp [Except.map] at h
  | ok p =>
    rw [hsv] at h
    simp [Except.map] at h
    subst h
    have hd : p.data = c1.points.data ++ c2.points.data :=
      sv_insert_range_end_ok _ _ _ hsv
    refine ⟨hd, ?_, rfl, rfl, rfl⟩
    show p.data.length % M32 = _
    rw [hd, List.length_append]

/-- C4 (corrected): `concatenate` produces the ordered sequence of a's points
followed by b's, with `height = 1`, the newest header stamp, and the AND of
the density flags; the resulting `width` is the combined length narrowed to
`uint32`, which equals the combined length exactly when that length is below
2^32 (amended from the claim's unconditional "width equal to the combined
length"). -/
theorem concatenate_spec (α : Type) (a b c : PointCloud α) :
    (a.points.data.length + b.points.data.length < M32 →
      PointCloud.concat2 a b = .ok c →
      c.points.data = a.points.data ++ b.points.data ∧
      c.width = a.points.data.length + b.points.data.length ∧
      c.height = 1 ∧
      c.header.stamp = max a.header.stamp b.header.stamp ∧
      c.is_dense = (a.is_dense && b.is_dense)) ∧
    (a.points.data.length + b.points.data.length < M32 →
      PointCloud.concat3 a b = .ok c →
      c.points.data = a.points.data ++ b.points.data ∧
      c.width = a.points.data.length + b.points.data.length ∧
      c.height = 1 ∧
      c.header.stamp = max a.header.stamp b.header.stamp ∧
      c.is_dense = (a.is_dense && b.is_dense)) ∧
    (a.points.isSpan = false →
      (PointCloud.concat2 a b).toOption.isSome = true) ∧
    (PointCloud.concat3 a b).toOption.isSome = true := by
  refine ⟨?_, ?_, ?_, ?_⟩
  · intro hlen h
    obtain ⟨h1, h2, h3, h4, h5⟩ := concat2_ok_fields a b c h
    exact ⟨h1, h2.trans (Nat.mod_eq_of_lt hlen), h3, h4, h5⟩
  · intro hlen h
    unfold PointCloud.concat3 at h
    obtain ⟨h1, h2, h3, h4, h5⟩ :=
      concat2_ok_fields { a with points := a.points.copy } b c h
    exact ⟨h1, h2.trans (Nat.mod_eq_of_lt hlen), h3, h4, h5⟩
  · intro hns
    unfold PointCloud.concat2 SpanOrVector.insert_range
    simp [hns, Except.map, Except.toOption]
  · unfold PointCloud.concat3 PointCloud.concat2 SpanOrVector.copy
      SpanOrVector.insert_range
    simp [Except.map, Except.toOption]

/-- Counterexample to C4 as stated: concatenating a grid holding exactly 2^32
points with a one-point grid stores `width = size()` through the `uint32`
narrowing, so the result has `width = 1`, not the combined length 2^32 + 1. -/
theorem concat_width_wrap_cex :
    (PointCloud.concat3 hugeCloud (PointCloud.fill 1 1 7)).toOption.map
        (fun c => (c.width, c.height)) = some (1, 1) ∧
    hugeCloud.points.data.length
        + (PointCloud.fill 1 1 (7 : Nat)).points.data.length = M32 + 1 ∧
    (1 : Nat) ≠ M32 + 1 := by
  have hlen1 : hugeCloud.points.data.length = M32 := by
    show (List.replicate M32 (0 : Nat)).length = M32
    rw [List.length_replicate]
  have hlen2 : (PointCloud.fill 1 1 (7 : Nat)).points.data.length = 1 := by
    show (List.replicate (1 * 1 % M32) (7 : Nat)).length = 1
    rw [List.length_replicate]
    norm_num [M32]
  refine ⟨?_, by rw [hlen1, hlen2], by norm_num [M32]⟩
  have hc3 : PointCloud.concat3 hugeCloud (PointCloud.fill 1 1 7)
      = PointCloud.concat2 hugeCloud (PointCloud.fill 1 1 7) := rfl
  obtain ⟨c, hc⟩ := concat2_total hugeCloud (PointCloud.fill 1 1 7) rfl
  rw [hc3, hc]
  obtain ⟨hd, hw, hh, h4, h5⟩ := concat2_ok_fields _ _ c hc
  simp [Except.toOption, hw, hh, hlen1, hlen2]
  norm_num [M32]

/-- Witness for C4 (amended), on the spec's own example: a 3-point grid
concatenated with a 2-point grid gives 5 points in order, width 5,
height 1. -/
theorem concatenate_spec_witness :
    (((PointCloud.concat3 (PointCloud.fill 3 1 (1 : Nat))
          (PointCloud.fill 2 1 2)).toOption.getD
        (PointCloud.fill 3 1 1)).points.data
      = (PointCloud.fill 3 1 (1 : Nat)).points.data
        ++ (PointCloud.fill 2 1 (2 : Nat)).points.data ∧
      ((PointCloud.concat3 (PointCloud.fill 3 1 (1 : Nat))
          (PointCloud.fill 2 1 2)).toOption.getD
        (PointCloud.fill 3 1 1)).width
      = (PointCloud.fill 3 1 (1 : Nat)).points.data.length
        + (PointCloud.fill 2 1 (2 : Nat)).points.data.length ∧
      ((PointCloud.concat3 (PointCloud.fill 3 1 (1 : Nat))
          (PointCloud.fill 2 1 2)).toOption.getD
        (PointCloud.fill 3 1 1)).height = 1 ∧
      ((PointCloud.concat3 (PointCloud.fill 3 1 (1 : Nat))
          (PointCloud.fill 2 1 2)).toOption.getD
        (PointCloud.fill 3 1 1)).header.stamp
      = max (PointCloud.fill 3 1 (1 : Nat)).header.stamp
          (PointCloud.fill 2 1 (2 : Nat)).header.stamp ∧
      ((PointCloud.concat3 (PointCloud.fill 3 1 (1 : Nat))
          (PointCloud.fill 2 1 2)).toOption.getD
        (PointCloud.fill 3 1 1)).is_dense
      = ((PointCloud.fill 3 1 (1 : Nat)).is_dense
          && (PointCloud.fill 2 1 (2 : Nat)).is_dense)) ∧
    (PointCloud.concat3 (PointCloud.fill 3 1 (1 : Nat))
        (PointCloud.fill 2 1 2)).toOption.isSome = true := by
  have h := concatenate_spec Nat (PointCloud.fill 3 1 (1 : Nat))
    (PointCloud.fill 2 1 2)
    ((PointCloud.concat3 (PointCloud.fill 3 1 (1 : Nat))
        (PointCloud.fill 2 1 2)).toOption.getD (PointCloud.fill 3 1 1))
  exact ⟨h.2.1 (by decide) (by decide), h.2.2.2⟩


/-- C7 (corrected): the index-subset copy constructor builds an owning grid
of length equal to the index count, `height = 1`, `is_dense` and header copied
from the source, and point `i` equal to `source[indices[i]]`; its `width` is
the index count narrowed to `uint32`, which equals the count exactly when the
count is below 2^32 (amended from the claim's unconditional "width = that
count").  Duplicates and reordering are permitted and each index must be below
the source length. -/
theorem subset_ctor_spec (α : Type) [Inhabited α] (pc : PointCloud α)
    (indices : List Nat)
    (hidx : ∀ i ∈ indices, i < pc.points.data.length)
    (hcnt : indices.length < M32) :
    (pc.subsetOf indices).points.isSpan = false ∧
    (pc.subsetOf indices).points.data.length = indices.length ∧
    (pc.subsetOf indices).width = indices.length ∧
    (pc.subsetOf indices).height = 1 ∧
    (pc.subsetOf indices).is_dense = pc.is_dense ∧
    (pc.subsetOf indices).header = pc.header ∧
    ∀ i j, indices.get? i = some j →
      (pc.subsetOf indices).points.data.get? i = pc.points.data.get? j := by
  refine ⟨rfl, ?_, ?_, rfl, rfl, rfl, ?_⟩
  · show (indices.map fun j => pc.points.data.getD j default).length
      = indices.length
    rw [List.length_map]
  · show indices.length % M32 = indices.length
    exact Nat.mod_eq_of_lt hcnt
  · intro i j hij
    show (indices.map fun j => pc.points.data.getD j default).get? i
      = pc.points.data.get? j
    rw [List.get?_map, hij]
    have hj : j < pc.points.data.length := hidx j (List.get?_mem hij)
    show some (pc.points.data.getD j default) = pc.points.data.get? j
    rw [List.getD_eq_getElem?_getD, List.get?_eq_getElem?,
      List.getElem?_eq_getElem hj]
    rfl

/-- The `width` field stored by the subset constructor, as a function of the
index count (the `uint32` narrowing of `indices.size()`). -/
theorem subsetOf_width (pc : PointCloud α) [Inhabited α] (indices : List Nat) :
    (pc.subsetOf indices).width = indices.length % M32 := rfl

/-- Counterexample to C7 as stated: taking index 0 of a one-point source 2^32
times is a legal index sequence (every index is below the source length, with
no bound on the count), yet the constructed grid stores `width = 0`, not the
index count 2^32. -/
theorem subset_width_wrap_cex :
    (PointCloud.subsetOf (PointCloud.fill 1 1 (3 : Nat)) hugeList).width = 0 ∧
    hugeList.length = M32 ∧
    (0 : Nat) ≠ M32 := by
  have hlen : hugeList.length = M32 := List.length_replicate _ _
  refine ⟨?_, hlen, by norm_num [M32]⟩
  rw [subsetOf_width, hlen, Nat.mod_self]

/-- Witness for C7 (amended), on the spec's own example: indices `[2, 0, 2]`
into a 3-point source. -/
theorem subset_ctor_spec_witness :
    ((PointCloud.ofSpan [10, 20, 30] 3 1).subsetOf [2, 0, 2]).points.isSpan
        = false ∧
    ((PointCloud.ofSpan [10, 20, 30] 3 1).subsetOf
        [2, 0, 2]).points.data.length = 3 ∧
    ((PointCloud.ofSpan [10, 20, 30] 3 1).subsetOf [2, 0, 2]).width = 3 ∧
    ((PointCloud.ofSpan [10, 20, 30] 3 1).subsetOf [2, 0, 2]).height = 1 ∧
    ((PointCloud.ofSpan [10, 20, 30] 3 1).subsetOf [2, 0, 2]).points.data.get? 0
        = (PointCloud.ofSpan [10, 20, 30] 3 1 : PointCloud Nat).points.data.get? 2 ∧
    ((PointCloud.ofSpan [10, 20, 30] 3 1).subsetOf [2, 0, 2]).points.data.get? 1
        = (PointCloud.ofSpan [10, 20, 30] 3 1 : PointCloud Nat).points.data.get? 0 ∧
    ((PointCloud.ofSpan [10, 20, 30] 3 1).subsetOf [2, 0, 2]).points.data.get? 2
        = (PointCloud.ofSpan [10, 20, 30] 3 1 : PointCloud Nat).points.data.get? 2 := by
  have h := subset_ctor_spec Nat (PointCloud.ofSpan [10, 20, 30] 3 1)
    [2, 0, 2] (by decide) (by decide)
  exact ⟨h.1, h.2.1, h.2.2.1, h.2.2.2.1,
    h.2.2.2.2.2.2 0 2 (by decide), h.2.2.2.2.2.2 1 0 (by decide),
    h.2.2.2.2.2.2 2 2 (by decide)⟩


/-- C5 (corrected): `at(col, row)` raises the unorganized-access error when
`height ≤ 1`; when `height > 1` it accesses the linear index computed as
`(row * width + col) % 2^32` (32-bit `int`/`unsigned` arithmetic), returning
the element when that index is below the length and raising the out-of-range
error otherwise; `operator()(col, row)` performs neither check and computes
its index in `size_t` (64-bit) arithmetic.  Both indices equal the
mathematical `row * width + col` — and hence agree — exactly when that value
is below 2^32 (amended from the claim's unconditional exact-index reading). -/
theorem at2_call2_spec (α : Type) (pc : PointCloud α) (column row : Nat) :
    (pc.height ≤ 1 → pc.at2 column row = .error .unorganized) ∧
    (1 < pc.height → row * pc.width + column < M32 →
      (∀ hlt : row * pc.width + column < pc.points.data.length,
        pc.at2 column row
          = .ok (pc.points.data.get ⟨row * pc.width + column, hlt⟩)) ∧
      (pc.points.data.length ≤ row * pc.width + column →
        pc.at2 column row = .error .outOfRange)) ∧
    (row * pc.width + column < M32 →
      pc.call2 column row = pc.points.data.get? (row * pc.width + column)) := by
  refine ⟨?_, ?_, ?_⟩
  · intro hle
    unfold PointCloud.at2
    rw [if_neg (by omega)]
  · intro h1 hidx
    unfold PointCloud.at2
    rw [if_pos h1, Nat.mod_eq_of_lt hidx]
    constructor
    · intro hlt
      rw [List.get?_eq_get hlt]
    · intro hge
      rw [List.get?_eq_none.mpr hge]
  · intro hidx
    unfold PointCloud.call2
    rw [Nat.mod_eq_of_lt (lt_trans hidx (by norm_num [M32, M64]))]

/-- Counterexample to C5 as stated: on a 4-by-2 grid of eight points,
`at(1, 2^30)` has mathematical offset `2^30 * 4 + 1 = 2^32 + 1`, far beyond
the length 8, so the claim requires the out-of-range error — but the `int`
arithmetic wraps the index to 1 and the call returns element 1.  The
`size_t`-computed `operator()` index (2^32 + 1) is also not the same as the
wrapped `at` index. -/
theorem at2_index_wrap_cex :
    (PointCloud.fill 4 2 (9 : Nat)).at2 1 1073741824 = .ok 9 ∧
    (PointCloud.fill 4 2 (9 : Nat)).points.data.length
      ≤ 1073741824 * (PointCloud.fill 4 2 (9 : Nat)).width + 1 ∧
    (PointCloud.fill 4 2 (9 : Nat)).call2 1 1073741824 = none := by decide

/-- Witness for C5 (amended) at concrete grids: an unorganized grid rejects 2D
access; a 2-by-2 grid returns the element at index `row * width + col` and
raises out-of-range beyond the length; `operator()` reads the same index
without checks. -/
theorem at2_call2_spec_witness :
    (PointCloud.fill 3 1 (7 : Nat)).at2 0 0 = .error .unorganized ∧
    (PointCloud.fill 2 2 (5 : Nat)).at2 1 1 = .ok 5 ∧
    (PointCloud.fill 2 2 (5 : Nat)).at2 0 5 = .error .outOfRange ∧
    (PointCloud.fill 2 2 (5 : Nat)).call2 1 1
      = (PointCloud.fill 2 2 (5 : Nat)).points.data.get? 3 := by
  refine ⟨?_, ?_, ?_, ?_⟩
  · exact (at2_call2_spec Nat (PointCloud.fill 3 1 7) 0 0).1 (by decide)
  · have h := ((at2_call2_spec Nat (PointCloud.fill 2 2 5) 1 1).2.1
      (by decide) (by decide)).1 (by decide)
    rw [h]
    decide
  · exact ((at2_call2_spec Nat (PointCloud.fill 2 2 5) 0 5).2.1
      (by decide) (by decide)).2 (by decide)
  · exact (at2_call2_spec Nat (PointCloud.fill 2 2 5) 1 1).2.2 (by decide)


/-- C6 (corrected): width-qualified `assign` with nonzero `newWidth` dividing
the assigned size sets `width = newWidth`, `height = size / newWidth` with no
diagnostic; with `newWidth = 0` or not dividing the size, the assignment still
happens and the grid falls back to `width = size, height = 1` with a
diagnostic; it is never a hard failure on an owning grid.  This holds for
sizes and widths below 2^32 (amended: for a size of at least 2^32 the `uint32`
mismatch test `width * height != size()` fires even in the evenly-dividing
case, see the counterexample). -/
theorem assign_width_policy (α : Type) (pc : PointCloud α) (xs : List α)
    (nw : Nat) (hxs : xs.length < M32) (hnw : nw < M32) :
    (∀ r, nw ≠ 0 → nw ∣ xs.length → pc.assign_list_w xs nw = .ok r →
      r.1.points.data = xs ∧ r.1.width = nw ∧ r.1.height = xs.length / nw ∧
      r.2 = false) ∧
    (∀ r, nw ≠ 0 → ¬ nw ∣ xs.length → pc.assign_list_w xs nw = .ok r →
      r.1.points.data = xs ∧ r.1.width = xs.length ∧ r.1.height = 1 ∧
      r.2 = true) ∧
    (∀ r, nw = 0 → pc.assign_list_w xs nw = .ok r →
      r.1.points.data = xs ∧ r.1.width = xs.length ∧ r.1.height = 1 ∧
      r.2 = true) ∧
    (pc.points.isSpan = false →
      (pc.assign_list_w xs nw).toOption.isSome = true) := by
  have hdivmod : xs.length / nw % M32 = xs.length / nw :=
    Nat.mod_eq_of_lt (lt_of_le_of_lt (Nat.div_le_self _ _) hxs)
  have hprodmod : nw * (xs.length / nw) % M32 = nw * (xs.length / nw) :=
    Nat.mod_eq_of_lt (lt_of_le_of_lt
      (by rw [Nat.mul_comm]; exact Nat.div_mul_le_self _ _) hxs)
  refine ⟨?_, ?_, ?_, ?_⟩
  · intro r hnw0 hdvd h
    unfold PointCloud.assign_list_w at h
    rw [if_neg hnw0] at h
    cases ha : pc.points.assign_list xs with
    | error e => rw [ha] at h; simp [Except.map] at h
    | ok p =>
      rw [ha] at h
      simp [Except.map] at h
      have hd : p.data = xs := sv_assign_list_ok _ _ _ ha
      rw [hd, hdivmod, hprodmod, if_pos (Nat.mul_div_cancel' hdvd)] at h
      subst h
      exact ⟨hd, rfl, rfl, rfl⟩
  · intro r hnw0 hndvd h
    unfold PointCloud.assign_list_w at h
    rw [if_neg hnw0] at h
    cases ha : pc.points.assign_list xs with
    | error e => rw [ha] at h; simp [Except.map] at h
    | ok p =>
      rw [ha] at h
      simp [Except.map] at h
      have hd : p.data = xs := sv_assign_list_ok _ _ _ ha
      rw [hd, hdivmod, hprodmod,
        if_neg (fun hc => hndvd ⟨xs.length / nw, hc.symm⟩)] at h
      subst h
      exact ⟨hd, Nat.mod_eq_of_lt hxs, rfl, rfl⟩
  · intro r hnw0 h
    unfold PointCloud.assign_list_w at h
    rw [if_pos hnw0] at h
    cases ha : pc.assign_list xs with
    | error e => rw [ha] at h; simp [Except.map] at h
    | ok c =>
      rw [ha] at h
      simp [Except.map] at h
      subst h
      obtain ⟨hd, hw, hh⟩ := assign_list_ok_data pc xs c ha
      exact ⟨hd, hw.trans (Nat.mod_eq_of_lt hxs), hh, rfl⟩
  · intro hns
    unfold PointCloud.assign_list_w PointCloud.assign_list
      SpanOrVector.assign_list
    by_cases h0 : nw = 0
    · rw [if_pos h0]
      simp [hns, Except.map, Except.toOption]
    · rw [if_neg h0]
      simp [hns, Except.map, Except.toOption]

/-- The `(width, height, diagnostic)` result of width-qualified `assign`
after a successful buffer assignment, as a function of the assigned size
(everything in the machine arithmetic of the source). -/
theorem assign_list_w_fields (pc : PointCloud α) (xs : List α) (nw : Nat)
    (p : SpanOrVector α) (hnw0 : nw ≠ 0)
    (ha : pc.points.assign_list xs = .ok p) :
    pc.assign_list_w xs nw
      = .ok (if nw * (p.data.length / nw % M32) % M32 = p.data.length
          then ({ pc with points := p, width := nw, height := p.data.length / nw % M32 }, false)
          else ({ pc with points := p, width := p.data.length % M32, height := 1 }, true)) := by
  unfold PointCloud.assign_list_w
  rw [if_neg hnw0, ha]
  rfl

/-- Counterexample to C6 as stated: assigning a range of exactly 2^32 points
with `newWidth = 2` — which evenly divides the size — still takes the
fallback branch, because the `uint32` product `width * height` wraps to 0 and
the mismatch test fires: the result is `width = 0, height = 1` with the
diagnostic, not `width = 2, height = 2^31` without it. -/
theorem assign_divisible_overflow_cex :
    ((PointCloud.fill 0 0 (0 : Nat)).assign_list_w hugeList 2).toOption.map
        (fun r => (r.1.width, r.1.height, r.2)) = some (0, 1, true) ∧
    (2 : Nat) ∣ hugeList.length ∧ (2 : Nat) ≠ 0 ∧ (0 : Nat) ≠ 2 := by
  have hlen : hugeList.length = M32 := List.length_replicate _ _
  have hX : (⟨false, hugeList⟩ : SpanOrVector Nat).data.length = M32 := hlen
  have ha : (PointCloud.fill 0 0 (0 : Nat)).points.assign_list hugeList
      = .ok ⟨false, hugeList⟩ := rfl
  have hcond : ¬(2 * ((⟨false, hugeList⟩ : SpanOrVector Nat).data.length / 2
      % M32) % M32 = (⟨false, hugeList⟩ : SpanOrVector Nat).data.length) := by
    rw [hX]
    norm_num [M32]
  refine ⟨?_, ⟨2147483648, by rw [hlen]; norm_num [M32]⟩, by norm_num,
    by norm_num⟩
  rw [assign_list_w_fields (PointCloud.fill 0 0 (0 : Nat)) hugeList 2
    ⟨false, hugeList⟩ (by norm_num) ha, if_neg hcond, hX, Nat.mod_self]
  rfl

/-- Witness for C6 (amended) at concrete inputs: assigning six points with
width 3 gives a 3-by-2 grid and no diagnostic; width 4 and width 0 fall back
to `width = 6, height = 1` with the diagnostic; an owning grid never fails. -/
theorem assign_width_policy_witness :
    ((((PointCloud.fill 0 0 (0 : Nat)).assign_list_w [1, 2, 3, 4, 5, 6]
          3).toOption.getD (PointCloud.fill 0 0 0, false)).1.points.data
        = [1, 2, 3, 4, 5, 6] ∧
      (((PointCloud.fill 0 0 (0 : Nat)).assign_list_w [1, 2, 3, 4, 5, 6]
          3).toOption.getD (PointCloud.fill 0 0 0, false)).1.width = 3 ∧
      (((PointCloud.fill 0 0 (0 : Nat)).assign_list_w [1, 2, 3, 4, 5, 6]
          3).toOption.getD (PointCloud.fill 0 0 0, false)).1.height = 2 ∧
      (((PointCloud.fill 0 0 (0 : Nat)).assign_list_w [1, 2, 3, 4, 5, 6]
          3).toOption.getD (PointCloud.fill 0 0 0, false)).2 = false) ∧
    ((((PointCloud.fill 0 0 (0 : Nat)).assign_list_w [1, 2, 3, 4, 5]
          3).toOption.getD (PointCloud.fill 0 0 0, false)).1.width = 5 ∧
      (((PointCloud.fill 0 0 (0 : Nat)).assign_list_w [1, 2, 3, 4, 5]
          3).toOption.getD (PointCloud.fill 0 0 0, false)).1.height = 1 ∧
      (((PointCloud.fill 0 0 (0 : Nat)).assign_list_w [1, 2, 3, 4, 5]
          3).toOption.getD (PointCloud.fill 0 0 0, false)).2 = true) ∧
    ((((PointCloud.fill 0 0 (0 : Nat)).assign_list_w [1, 2, 3]
          0).toOption.getD (PointCloud.fill 0 0 0, false)).1.width = 3 ∧
      (((PointCloud.fill 0 0 (0 : Nat)).assign_list_w [1, 2, 3]
          0).toOption.getD (PointCloud.fill 0 0 0, false)).1.height = 1 ∧
      (((PointCloud.fill 0 0 (0 : Nat)).assign_list_w [1, 2, 3]
          0).toOption.getD (PointCloud.fill 0 0 0, false)).2 = true) ∧
    ((PointCloud.fill 0 0 (0 : Nat)).assign_list_w [1, 2, 3]
        4).toOption.isSome = true := by
  refine ⟨?_, ?_, ?_, ?_⟩
  · have h := (assign_width_policy Nat (PointCloud.fill 0 0 (0 : Nat))
      [1, 2, 3, 4, 5, 6] 3 (by decide) (by decide)).1
      (((PointCloud.fill 0 0 (0 : Nat)).assign_list_w [1, 2, 3, 4, 5, 6]
        3).toOption.getD (PointCloud.fill 0 0 0, false))
      (by decide) (by decide) (by decide)
    exact ⟨h.1, h.2.1, h.2.2.1, h.2.2.2⟩
  · have h := (assign_width_policy Nat (PointCloud.fill 0 0 (0 : Nat))
      [1, 2, 3, 4, 5] 3 (by decide) (by decide)).2.1
      (((PointCloud.fill 0 0 (0 : Nat)).assign_list_w [1, 2, 3, 4, 5]
        3).toOption.getD (PointCloud.fill 0 0 0, false))
      (by decide) (by decide) (by decide)
    exact ⟨h.2.1, h.2.2.1, h.2.2.2⟩
  · have h := (assign_width_policy Nat (PointCloud.fill 0 0 (0 : Nat))
      [1, 2, 3] 0 (by decide) (by decide)).2.2.1
      (((PointCloud.fill 0 0 (0 : Nat)).assign_list_w [1, 2, 3]
        0).toOption.getD (PointCloud.fill 0 0 0, false)) rfl (by decide)
    exact ⟨h.2.1, h.2.2.1, h.2.2.2⟩
  · exact (assign_width_policy Nat (PointCloud.fill 0 0 (0 : Nat))
      [1, 2, 3] 4 (by decide) (by decide)).2.2.2 (by decide)

end PclCloudSpan
